import Mathlib

/-!
Verification of the LeetVis backend orchestration core (src/backend/main.py and
src/backend/database/service.py), shallowly embedded in Lean.

Strings are modelled as Lean `String` / `List Char`; the Python string methods
used by the source (`strip`, `lower`, `replace`, `split`, `join`, `title`) are
embedded over their ASCII fragment, which is the fragment exercised by the
problem slugs, language names and video types of this backend.
-/

namespace LeetVis

/-! ## Python string primitives (ASCII fragment) -/

/-- Whitespace recognised by Python `str.strip()` (ASCII fragment:
space, tab, newline, carriage return, vertical tab, form feed). -/
def isPySpace (c : Char) : Bool :=
  c.toNat = 32 || c.toNat = 9 || c.toNat = 10 || c.toNat = 13 || c.toNat = 11 || c.toNat = 12

/-- Python `str.strip()`: drop leading and trailing whitespace. -/
def pyStrip (s : List Char) : List Char :=
  ((s.dropWhile isPySpace).reverse.dropWhile isPySpace).reverse

/-- Python `str.replace(a, b)` for single-character `a`, `b`. -/
def replaceChar (a b : Char) (s : List Char) : List Char :=
  s.map (fun c => if c = a then b else c)

/-- `VideoRequest.title_slug` (src/backend/main.py lines 32-35):
`problem_title.strip().lower().replace(" ", "_").replace("-", "_")`.
`Char.toLower` is exactly the ASCII case mapping applied by Python `str.lower`
on ASCII input. -/
def title_slug (s : List Char) : List Char :=
  replaceChar '-' '_' (replaceChar ' ' '_' ((pyStrip s).map Char.toLower))

/-- The same normalisation packaged on `String` (it is also re-applied inside
`DatabaseService.get_video` and `DatabaseService.create_video`). -/
def normalize (s : String) : String := String.mk (title_slug s.data)

/-! ### Character-level lemmas -/

theorem toNat_ofNat_of_valid {n : Nat} (h : n.isValidChar) : (Char.ofNat n).toNat = n := by
  simp only [Char.ofNat, dif_pos h, Char.ofNatAux, Char.toNat]
  simp [UInt32.toNat]

theorem toLower_eq (c : Char) :
    Char.toLower c = if 65 ≤ c.toNat ∧ c.toNat ≤ 90 then Char.ofNat (c.toNat + 32) else c := rfl

theorem toNat_toLower (c : Char) :
    (Char.toLower c).toNat = if 65 ≤ c.toNat ∧ c.toNat ≤ 90 then c.toNat + 32 else c.toNat := by
  rw [toLower_eq]
  by_cases h : 65 ≤ c.toNat ∧ c.toNat ≤ 90
  · rw [if_pos h, if_pos h]
    exact toNat_ofNat_of_valid (Or.inl (by omega))
  · rw [if_neg h, if_neg h]

theorem toLower_idem (c : Char) : (Char.toLower c).toLower = c.toLower := by
  have h1 := toNat_toLower c
  have h2 : ¬ (65 ≤ (Char.toLower c).toNat ∧ (Char.toLower c).toNat ≤ 90) := by
    rw [h1]
    by_cases h : 65 ≤ c.toNat ∧ c.toNat ≤ 90 <;> simp [h] <;> omega
  rw [toLower_eq (Char.toLower c), if_neg h2]

/-- Per-character effect of strip-then-lower-then-replace: the composite map
applied to each character that survives the strip. -/
def slugChar (c : Char) : Char :=
  let d := Char.toLower c
  let e := if d = ' ' then '_' else d
  if e = '-' then '_' else e

theorem title_slug_eq_map (s : List Char) : title_slug s = (pyStrip s).map slugChar := by
  simp only [title_slug, replaceChar, List.map_map]
  rfl

theorem slugChar_cases (c : Char) :
    slugChar c = '_' ∨
      (slugChar c = Char.toLower c ∧ Char.toLower c ≠ ' ' ∧ Char.toLower c ≠ '-') := by
  unfold slugChar
  by_cases h1 : Char.toLower c = ' '
  · simp [h1]
  · by_cases h2 : Char.toLower c = '-'
    · simp [h1, h2]
    · simp [h1, h2]

theorem slugChar_idem (c : Char) : slugChar (slugChar c) = slugChar c := by
  rcases slugChar_cases c with h | ⟨h, hsp, hhy⟩
  · rw [h]; decide
  · rw [h]
    unfold slugChar
    rw [toLower_idem]
    simp [hsp, hhy]

theorem slugChar_not_space (c : Char) (h : isPySpace c = false) :
    isPySpace (slugChar c) = false := by
  rcases slugChar_cases c with h1 | ⟨h1, _, _⟩
  · rw [h1]; decide
  · rw [h1]
    simp only [isPySpace, toNat_toLower] at *
    by_cases hr : 65 ≤ c.toNat ∧ c.toNat ≤ 90
    · simp only [if_pos hr]
      simp only [Bool.or_eq_false_iff, decide_eq_false_iff_not] at *
      omega
    · simpa [if_neg hr] using h

/-! ### Strip lemmas -/

theorem dropWhile_head_not {α : Type} (p : α → Bool) (l : List α) :
    ∀ a, (l.dropWhile p).head? = some a → p a = false := by
  induction l with
  | nil => simp
  | cons c t ih =>
    intro a
    by_cases h : p c
    · rw [List.dropWhile_cons_of_pos h]
      exact ih a
    · rw [List.dropWhile_cons_of_neg h]
      intro he
      simp only [List.head?_cons, Option.some_inj] at he
      subst he
      simpa using h

theorem dropWhile_eq_self_of_head {α : Type} (p : α → Bool) (l : List α)
    (h : ∀ a, l.head? = some a → p a = false) : l.dropWhile p = l := by
  cases l with
  | nil => rfl
  | cons c t =>
    have := h c (by simp)
    rw [List.dropWhile_cons_of_neg (by simp [this])]

theorem getLast?_dropWhile {α : Type} (p : α → Bool) (l : List α)
    (h : l.dropWhile p ≠ []) : (l.dropWhile p).getLast? = l.getLast? := by
  induction l with
  | nil => simp at h
  | cons c t ih =>
    by_cases hc : p c
    · rw [List.dropWhile_cons_of_pos hc] at *
      have ht : t ≠ [] := by
        intro he
        rw [he] at h
        simp at h
      rw [ih h]
      cases t with
      | nil => exact absurd rfl ht
      | cons x t' => rw [List.getLast?_cons_cons]
    · rw [List.dropWhile_cons_of_neg hc]

theorem pyStrip_eq_self (l : List Char)
    (h1 : ∀ a, l.head? = some a → isPySpace a = false)
    (h2 : ∀ a, l.getLast? = some a → isPySpace a = false) : pyStrip l = l := by
  unfold pyStrip
  rw [dropWhile_eq_self_of_head isPySpace l h1]
  rw [dropWhile_eq_self_of_head isPySpace l.reverse (by
    intro a ha
    rw [List.head?_reverse] at ha
    exact h2 a ha)]
  exact List.reverse_reverse l

theorem pyStrip_getLast_not (l : List Char) :
    ∀ a, (pyStrip l).getLast? = some a → isPySpace a = false := by
  intro a h
  unfold pyStrip at h
  rw [List.getLast?_reverse] at h
  exact dropWhile_head_not _ _ a h

theorem pyStrip_head_not (l : List Char) :
    ∀ a, (pyStrip l).head? = some a → isPySpace a = false := by
  intro a h
  unfold pyStrip at h
  rw [List.head?_reverse] at h
  have hne : (l.dropWhile isPySpace).reverse.dropWhile isPySpace ≠ [] := by
    intro he
    rw [he] at h
    simp at h
  rw [getLast?_dropWhile _ _ hne, List.getLast?_reverse] at h
  exact dropWhile_head_not _ _ a h

theorem title_slug_idem (s : List Char) : title_slug (title_slug s) = title_slug s := by
  rw [title_slug_eq_map s, title_slug_eq_map ((pyStrip s).map slugChar)]
  have hstrip : pyStrip ((pyStrip s).map slugChar) = (pyStrip s).map slugChar := by
    refine pyStrip_eq_self _ ?_ ?_
    · intro a ha
      rw [List.head?_map] at ha
      cases hh : (pyStrip s).head? with
      | none => rw [hh] at ha; exact absurd ha (by simp)
      | some b =>
        rw [hh] at ha
        have hb : slugChar b = a := by simpa using ha
        rw [← hb]
        exact slugChar_not_space b (pyStrip_head_not s b hh)
    · intro a ha
      rw [List.getLast?_map] at ha
      cases hh : (pyStrip s).getLast? with
      | none => rw [hh] at ha; exact absurd ha (by simp)
      | some b =>
        rw [hh] at ha
        have hb : slugChar b = a := by simpa using ha
        rw [← hb]
        exact slugChar_not_space b (pyStrip_getLast_not s b hh)
  rw [hstrip, List.map_map]
  have hc : ∀ a ∈ pyStrip s, (slugChar ∘ slugChar) a = slugChar a := by
    intro a _
    simp only [Function.comp_apply]
    exact slugChar_idem a
  exact List.map_congr_left hc

/-! ## Underscore-delimited video ids -/

/-- Python `s.split(sep)` for a single-character separator `sep`.
`"".split(sep)` is `[""]`, and consecutive separators produce empty parts. -/
def splitOnChar (sep : Char) : List Char → List (List Char)
  | [] => [[]]
  | c :: rest =>
    match splitOnChar sep rest with
    | [] => [[]]
    | p :: ps => if c = sep then [] :: p :: ps else (c :: p) :: ps

/-- Python `sep.join(parts)` for a single-character separator. -/
def joinWithChar (sep : Char) : List (List Char) → List Char
  | [] => []
  | [p] => p
  | p :: q :: ps => p ++ sep :: joinWithChar sep (q :: ps)

theorem splitOnChar_cons (sep c : Char) (rest : List Char) :
    splitOnChar sep (c :: rest) =
      match splitOnChar sep rest with
      | [] => [[]]
      | p :: ps => if c = sep then [] :: p :: ps else (c :: p) :: ps := rfl

theorem splitOnChar_ne_nil (sep : Char) (l : List Char) : splitOnChar sep l ≠ [] := by
  cases l with
  | nil => simp [splitOnChar]
  | cons c rest =>
    rw [splitOnChar_cons]
    cases h : splitOnChar sep rest with
    | nil => simp
    | cons p ps =>
      by_cases hc : c = sep <;> simp [hc]

theorem splitOnChar_append (sep : Char) (xs ys : List Char) :
    splitOnChar sep (xs ++ sep :: ys) = splitOnChar sep xs ++ splitOnChar sep ys := by
  induction xs with
  | nil =>
    rw [List.nil_append, splitOnChar_cons]
    cases h : splitOnChar sep ys with
    | nil => exact absurd h (splitOnChar_ne_nil sep ys)
    | cons p ps => simp [splitOnChar]
  | cons c xs ih =>
    rw [List.cons_append, splitOnChar_cons, ih, splitOnChar_cons]
    cases h : splitOnChar sep xs with
    | nil => exact absurd h (splitOnChar_ne_nil sep xs)
    | cons p ps =>
      rw [List.cons_append]
      by_cases hc : c = sep <;> simp [hc]

theorem splitOnChar_of_not_mem (sep : Char) (l : List Char) (h : sep ∉ l) :
    splitOnChar sep l = [l] := by
  induction l with
  | nil => rfl
  | cons c rest ih =>
    have hc : c ≠ sep := fun he => h (by rw [he]; exact List.mem_cons_self _ _)
    have hrest : sep ∉ rest := fun hm => h (List.mem_cons_of_mem _ hm)
    simp only [splitOnChar, ih hrest]
    simp [hc]

theorem joinWithChar_cons_head (sep : Char) (c : Char) (p : List Char) (ps : List (List Char)) :
    joinWithChar sep ((c :: p) :: ps) = c :: joinWithChar sep (p :: ps) := by
  cases ps with
  | nil => rfl
  | cons q qs => rfl

theorem joinWithChar_splitOnChar (sep : Char) (l : List Char) :
    joinWithChar sep (splitOnChar sep l) = l := by
  induction l with
  | nil => rfl
  | cons c rest ih =>
    obtain ⟨p, ps, hps⟩ := List.exists_cons_of_ne_nil (splitOnChar_ne_nil sep rest)
    rw [splitOnChar_cons, hps]
    by_cases hc : c = sep
    · subst hc
      simp only [if_pos rfl, joinWithChar]
      rw [← hps, ih]
      rfl
    · simp only [if_neg hc]
      rw [joinWithChar_cons_head, ← hps, ih]

/-- Key parsing used by `GET /api/video/{video_id}` and
`GET /api/video-status/{video_id}` (src/backend/main.py lines 302-311 and
394-399): split the id on underscores; the last part is the video type, the
second to last the language, and the remaining parts re-joined with
underscores form the title slug. `none` models the `len(parts) < 3` error
branch. -/
def parseVideoId (l : List Char) : Option (List Char × List Char × List Char) :=
  match (splitOnChar '_' l).reverse with
  | vt :: lang :: p :: ps => some (joinWithChar '_' ((p :: ps).reverse), lang, vt)
  | _ => none

/-! ## Cache Store (the videos table behind DatabaseService) -/

/-- One row of the videos table (src/backend/database/service.py). -/
structure Row where
  problem_title : String
  language : String
  video_type : String
  storage_url : String
deriving DecidableEq, Repr

/-- Row filter used by the Supabase queries: equality on the stored
(problem_title, language, video_type) columns. -/
def rowMatches (t l v : String) (r : Row) : Bool :=
  r.problem_title == t && r.language == l && r.video_type == v

/-- `DatabaseService.get_video` (service.py lines 10-25): normalises the title
to a slug, then returns the first row matching the triple, or `none`. -/
def DatabaseService.get_video (db : List Row) (problem_title lang vtype : String) :
    Option Row :=
  db.find? (rowMatches (normalize problem_title) lang vtype)

/-- `DatabaseService.create_video` (service.py lines 27-48): normalises the
title to a slug and inserts a row holding the storage URL. -/
def DatabaseService.create_video (db : List Row) (problem_title lang vtype url : String) :
    List Row :=
  db ++ [⟨normalize problem_title, lang, vtype, url⟩]

/-- `DatabaseService.delete_video` (service.py lines 50-65): deletes the rows
whose columns equal the given arguments verbatim. Unlike `get_video` and
`create_video` it does NOT normalise `problem_title`. The boolean it returns
in the source (`response.data is not None`) is `True` even when nothing
matched, so it is not modelled. -/
def DatabaseService.delete_video (db : List Row) (problem_title lang vtype : String) :
    List Row :=
  db.filter (fun r => !(rowMatches problem_title lang vtype r))

/-! ## Generation Status Table and background pipeline -/

/-- One value of the process-local `video_generation_status` dictionary
(src/backend/main.py line 46). `storage_url` is `some` exactly when the dict
entry carries a `"storage_url"` key. -/
structure StatusEntry where
  status : String
  progress : Nat
  message : String
  storage_url : Option String
deriving DecidableEq, Repr

/-- The ambient status dictionary, keyed by video id. -/
def StatusTable : Type := String → Option StatusEntry

/-- Non-terminal entry written while the pipeline advances. -/
def eGen (p : Nat) (msg : String) : StatusEntry := ⟨"generating", p, msg, none⟩

/-- Terminal entry written when a stage fails: status error, progress reset
to 0. -/
def eErr (msg : String) : StatusEntry := ⟨"error", 0, msg, none⟩

/-- Outcome of each externally-performed stage of one background job:
whether `solution_generator.generate_solution` succeeds, whether
`manim_service.generate_video` succeeds, whether the rendered file exists on
disk, what `storage_service.upload_video` returns (`none` models a raised
exception), and whether `DatabaseService.create_video` actually inserts a
row (`false` covers both a raised exception and a `None` response). -/
structure Outcomes where
  solutionOk : Bool
  renderOk : Bool
  fileExists : Bool
  uploadResult : Option String
  dbSaveOk : Bool
deriving DecidableEq, Repr

/-- The upload step succeeds only when `upload_video` returns a truthy URL:
`if not storage_url: raise Exception("Upload returned no URL")`. -/
def uploadOkUrl (o : Outcomes) : Option String :=
  match o.uploadResult with
  | none => none
  | some u => if u = "" then none else some u

/-- `generate_video_background` (src/backend/main.py lines 60-203), abstracted
over the stage outcomes. The first component is the ordered sequence of values
the job writes into `video_generation_status[video_id]`; the second is whether
a Cache Entry row is inserted by `DatabaseService.create_video`. A database
failure at the persist step is caught and the job still finishes `ready`
(lines 170-174); a cleanup failure is also caught and has no observable
effect. -/
def generate_video_background (o : Outcomes) : List StatusEntry × Bool :=
  let t0 := [eGen 0 "Starting video generation...",
             eGen 20 "Generating solution code..."]
  if !o.solutionOk then
    (t0 ++ [eErr "We could not generate a solution for this problem. Please check the problem title and try again."], false)
  else
    let t1 := t0 ++ [eGen 50 "Creating video animation..."]
    if !o.renderOk then
      (t1 ++ [eErr "Sorry, we could not create the video animation. Please try again later."], false)
    else if !o.fileExists then
      (t1 ++ [eErr "Video generation completed but file not found. Please try again."], false)
    else
      let t2 := t1 ++ [eGen 70 "Uploading video to storage..."]
      match uploadOkUrl o with
      | none =>
        (t2 ++ [eErr "Video was created but could not be saved to storage. Please try again."], false)
      | some url =>
        (t2 ++ [eGen 90 "Saving video record to database...",
                eGen 95 "Cleaning up temporary files...",
                ⟨"ready", 100, "Your video is ready!", some url⟩], o.dbSaveOk)

/-- Boolean non-decreasing check over a list of progress values. -/
def nonDecreasing : List Nat → Bool
  | [] => true
  | [_] => true
  | a :: b :: rest => a ≤ b && nonDecreasing (b :: rest)

/-! ## Request Coordinator (POST /api/generate-video) -/

/-- Problem metadata as returned by `fetch_problem_details`. -/
structure Meta where
  title : String
  difficulty : String
  content : String
deriving DecidableEq, Repr

/-- Coordinator-level side effects, in the order they are performed.
Code generation, rendering and upload happen only inside a submitted
background job (see `generate_video_background`), never in the coordinator. -/
inductive Effect
  | cacheLookup
  | cacheDelete
  | metadataFetch
  | jobSubmit
deriving DecidableEq, Repr

/-- HTTP-level responses of the endpoints. -/
inductive Response
  | video (video_id : String) (video_url : String) (status : String)
  | message (text : String)
  | httpError (code : Nat) (detail : String)
deriving DecidableEq, Repr

/-- Result of one run of the coordinator: response, cache-store state after
the run, status table after the run (the coordinator itself never writes an
entry; only a submitted background job does), effect trace, and whether a
background job was submitted to the executor. -/
structure CoordResult where
  response : Response
  db : List Row
  statusTable : StatusTable
  effects : List Effect
  submitted : Bool

/-- Construction of the video id (src/backend/main.py line 215). -/
def videoIdOf (slug lang vtype : String) : String :=
  slug ++ "_" ++ lang ++ "_" ++ vtype

/-- URL of the polling endpoint returned while a video is generating. -/
def statusPath (vid : String) : String := "/api/video-status/" ++ vid

/-- Outcome of the synchronous part of `generate_video` before the
`await fetch_problem_details` suspension point. -/
inductive CheckOut
  | respond (r : CoordResult)
  | toFetch (db : List Row) (vid : String) (effects : List Effect)

/-- STEP 2 of `generate_video` (src/backend/main.py lines 241-258): the
in-flight check against `video_generation_status`. Falls through to the
metadata fetch when the entry is absent, is in an error state, or is ready
without a recorded storage URL. -/
def inflightCheck (db : List Row) (table : StatusTable) (vid : String)
    (eff : List Effect) : CheckOut :=
  match table vid with
  | some e =>
    if e.status = "generating" then
      .respond ⟨.video vid (statusPath vid) "generating", db, table, eff, false⟩
    else if e.status = "ready" then
      match e.storage_url with
      | some u => .respond ⟨.video vid u "ready", db, table, eff, false⟩
      | none => .toFetch db vid eff
    else .toFetch db vid eff
  | none => .toFetch db vid eff

/-- STEP 1 + STEP 2 of `generate_video` (src/backend/main.py lines 205-258):
cache check (with the delete-then-fall-through self-healing branch) followed
by the in-flight check. This whole block runs synchronously on the event
loop: no other request handler can interleave inside it. -/
def coordCheckPhase (db : List Row) (table : StatusTable)
    (problem_title lang vtype : String) : CheckOut :=
  match DatabaseService.get_video db (normalize problem_title) lang vtype with
  | some row =>
    if row.storage_url ≠ "" then
      .respond ⟨.video (videoIdOf (normalize problem_title) lang vtype) row.storage_url "ready",
        db, table, [.cacheLookup], false⟩
    else
      inflightCheck (DatabaseService.delete_video db (normalize problem_title) lang vtype)
        table (videoIdOf (normalize problem_title) lang vtype) [.cacheLookup, .cacheDelete]
  | none => inflightCheck db table (videoIdOf (normalize problem_title) lang vtype) [.cacheLookup]

/-- STEP 3 + STEP 4 of `generate_video` (src/backend/main.py lines 260-274),
resumed after the `await fetch_problem_details(...)` suspension point, with
the metadata result passed in: 404 when metadata is absent, otherwise submit
the background job to the executor and answer `generating`. The coordinator
records no status entry itself. -/
def coordSubmitPhase (db : List Row) (table : StatusTable) (vid : String)
    (eff : List Effect) (metadata : Option Meta) : CoordResult :=
  match metadata with
  | none => ⟨.httpError 404 "Problem not found", db, table, eff ++ [.metadataFetch], false⟩
  | some _ =>
    ⟨.video vid (statusPath vid) "generating", db, table,
      eff ++ [.metadataFetch, .jobSubmit], true⟩

/-- Resumption of the handler after its check phase. -/
def runCheckOut (co : CheckOut) (table : StatusTable) (metadata : Option Meta) : CoordResult :=
  match co with
  | .respond r => r
  | .toFetch db' vid eff => coordSubmitPhase db' table vid eff metadata

/-- The full `generate_video` request handler (src/backend/main.py lines
205-291), as the sequential composition of the two phases, abstracted over
the metadata-collaborator result. -/
def generate_video (db : List Row) (table : StatusTable)
    (problem_title lang vtype : String) (metadata : Option Meta) : CoordResult :=
  runCheckOut (coordCheckPhase db table problem_title lang vtype) table metadata

/-- Event-loop interleaving of two identical `generate_video` requests for the
same key: request A runs its synchronous check phase and suspends at the
metadata await; request B then runs its check phase against the state A left
(the status table is unchanged, because the coordinator writes no entry and
the submitted job has not started); then A resumes and B resumes. Returns the
total number of background jobs submitted to the executor. -/
def concurrentDuplicateSubmissions (db : List Row) (table : StatusTable)
    (problem_title lang vtype : String) (metadata : Option Meta) : Nat :=
  match coordCheckPhase db table problem_title lang vtype with
  | .respond rA =>
    rA.submitted.toNat + (generate_video rA.db table problem_title lang vtype metadata).submitted.toNat
  | .toFetch dbA vidA effA =>
    match coordCheckPhase dbA table problem_title lang vtype with
    | .respond rB =>
      (coordSubmitPhase dbA table vidA effA metadata).submitted.toNat + rB.submitted.toNat
    | .toFetch dbB vidB effB =>
      (coordSubmitPhase dbA table vidA effA metadata).submitted.toNat
        + (coordSubmitPhase dbB table vidB effB metadata).submitted.toNat

/-! ## Status endpoint (GET /api/video-status/{video_id}) -/

/-- Response shape of the status endpoint. -/
structure StatusResponse where
  video_id : String
  status : String
  progress : Nat
  message : String
  video_url : Option String
deriving DecidableEq, Repr

/-- `get_video_status` (src/backend/main.py lines 371-440): the in-process
status table is consulted first; otherwise the id is re-parsed and the cache
store consulted; otherwise `not_found`. -/
def get_video_status (table : StatusTable) (db : List Row) (video_id : String) :
    StatusResponse :=
  match table video_id with
  | some e =>
    ⟨video_id, e.status, e.progress, e.message,
      if e.status = "ready" then e.storage_url else none⟩
  | none =>
    match parseVideoId video_id.data with
    | some (slug, lang, vt) =>
      match DatabaseService.get_video db (String.mk slug) (String.mk lang) (String.mk vt) with
      | some row =>
        if row.storage_url = "" then
          ⟨video_id, "error", 0, "Video record found but storage URL missing", none⟩
        else
          ⟨video_id, "ready", 100, "Video is ready for playback (cached)", some row.storage_url⟩
      | none => ⟨video_id, "not_found", 0, "Video not found or generation not started", none⟩
    | none => ⟨video_id, "not_found", 0, "Video not found or generation not started", none⟩

/-! ## Request validation (pydantic VideoRequest) -/

/-- The `Literal` set of the `language` field. -/
def validLanguages : List String := ["python", "java", "cpp"]

/-- The `Literal` set of the `video_type` field. -/
def validVideoTypes : List String := ["explanation", "brute_force", "optimal"]

/-- Validation applied by the pydantic `VideoRequest` model
(src/backend/main.py lines 30-37): `problem_title` is an arbitrary string
(there is no emptiness, length or content constraint), while `language` and
`video_type` must lie in their `Literal` sets. -/
def requestValid (problem_title lang vtype : String) : Bool :=
  validLanguages.contains lang && validVideoTypes.contains vtype

/-! ## DELETE /api/video/{video_id} -/

/-- ASCII cased characters, the fragment of Python `str.title()` relevant to
slugs and ids. -/
def isAsciiAlpha (c : Char) : Bool :=
  (65 ≤ c.toNat && c.toNat ≤ 90) || (97 ≤ c.toNat && c.toNat ≤ 122)

/-- Helper for `pyTitle`: the boolean records whether the previous character
was cased. -/
def pyTitleAux : Bool → List Char → List Char
  | _, [] => []
  | prevCased, c :: rest =>
    (if isAsciiAlpha c then (if prevCased then Char.toLower c else Char.toUpper c) else c)
      :: pyTitleAux (isAsciiAlpha c) rest

/-- Python `str.title()` (ASCII fragment): uppercase every cased character
that follows a non-cased one, lowercase the remaining cased characters. -/
def pyTitle (s : List Char) : List Char := pyTitleAux false s

/-- Result of the delete endpoint: HTTP response, cache store afterwards, and
the storage URLs passed to `storage_service.delete_video`. -/
structure DeleteResult where
  response : Response
  db : List Row
  storageDeleted : List String
deriving Repr

/-- `delete_video` endpoint (src/backend/main.py lines 574-609): the id is
split on underscores (via `replace("_", " ").split(" ")`), the last two parts
are language and video type, and the remaining parts are joined with spaces
and passed through `str.title()`. The resulting title-cased name is given to
`DatabaseService.get_video` (which re-normalises it) and then verbatim to
`DatabaseService.delete_video` (which does not). The boolean returned by
`DatabaseService.delete_video` is `True` even when no row matched, so the
endpoint reports success unconditionally on this path. Error branches raised
inside the handler are re-wrapped to 500 by its blanket exception handler;
only the raised code matters here. -/
def delete_video_endpoint (db : List Row) (video_id : String) : DeleteResult :=
  match (splitOnChar ' ' (replaceChar '_' ' ' video_id.data)).reverse with
  | vt :: lang :: p :: ps =>
    match DatabaseService.get_video db
        (String.mk (pyTitle (joinWithChar ' ' ((p :: ps).reverse))))
        (String.mk lang) (String.mk vt) with
    | none => ⟨.httpError 404 "Video not found", db, []⟩
    | some row =>
      ⟨.message "Video deleted successfully",
        DatabaseService.delete_video db
          (String.mk (pyTitle (joinWithChar ' ' ((p :: ps).reverse))))
          (String.mk lang) (String.mk vt),
        if row.storage_url = "" then [] else [row.storage_url]⟩
  | _ => ⟨.httpError 400 "Invalid video ID format", db, []⟩

/-! ## Helper lemmas -/

theorem normalize_idem (s : String) : normalize (normalize s) = normalize s :=
  congrArg String.mk (title_slug_idem s.data)

theorem find?_filter_not {α : Type} (p : α → Bool) (l : List α) :
    (l.filter (fun r => !(p r))).find? p = none := by
  rw [List.find?_eq_none]
  intro x hx
  have hp := (List.mem_filter.mp hx).2
  simp only [Bool.not_eq_eq_eq_not, Bool.not_true] at hp
  simp [hp]

/-- After the coordinator's self-healing delete, the cache lookup for the
same key misses. -/
theorem get_video_after_delete (db : List Row) (t l v : String) :
    DatabaseService.get_video (DatabaseService.delete_video db (normalize t) l v)
      (normalize t) l v = none := by
  unfold DatabaseService.get_video DatabaseService.delete_video
  rw [normalize_idem]
  exact find?_filter_not _ _

/-- The components of the handler's result other than the effect trace do not
depend on the effects accumulated before the in-flight check. -/
theorem runCheckOut_inflight_eff (db : List Row) (table : StatusTable) (vid : String)
    (eff eff' : List Effect) (m : Option Meta) :
    (runCheckOut (inflightCheck db table vid eff) table m).response
        = (runCheckOut (inflightCheck db table vid eff') table m).response
    ∧ (runCheckOut (inflightCheck db table vid eff) table m).db
        = (runCheckOut (inflightCheck db table vid eff') table m).db
    ∧ (runCheckOut (inflightCheck db table vid eff) table m).submitted
        = (runCheckOut (inflightCheck db table vid eff') table m).submitted := by
  unfold inflightCheck runCheckOut coordSubmitPhase
  cases htv : table vid with
  | none => cases m <;> exact ⟨rfl, rfl, rfl⟩
  | some e =>
    by_cases h1 : e.status = "generating"
    · simp [h1]
    · simp only [if_neg h1]
      by_cases h2 : e.status = "ready"
      · simp only [if_pos h2]
        cases e.storage_url with
        | none => cases m <;> exact ⟨rfl, rfl, rfl⟩
        | some u => exact ⟨rfl, rfl, rfl⟩
      · simp only [if_neg h2]
        cases m <;> exact ⟨rfl, rfl, rfl⟩

theorem coordCheckPhase_cache_hit (db : List Row) (table : StatusTable)
    (t l v : String) (row : Row)
    (hrow : DatabaseService.get_video db (normalize t) l v = some row)
    (hurl : row.storage_url ≠ "") :
    coordCheckPhase db table t l v
      = .respond ⟨.video (videoIdOf (normalize t) l v) row.storage_url "ready",
          db, table, [.cacheLookup], false⟩ := by
  unfold coordCheckPhase
  simp only [hrow]
  rw [if_pos hurl]

theorem coordCheckPhase_cache_stale (db : List Row) (table : StatusTable)
    (t l v : String) (row : Row)
    (hrow : DatabaseService.get_video db (normalize t) l v = some row)
    (hurl : row.storage_url = "") :
    coordCheckPhase db table t l v
      = inflightCheck (DatabaseService.delete_video db (normalize t) l v) table
          (videoIdOf (normalize t) l v) [.cacheLookup, .cacheDelete] := by
  unfold coordCheckPhase
  simp only [hrow]
  rw [if_neg (fun h => h hurl)]

theorem coordCheckPhase_cache_miss (db : List Row) (table : StatusTable)
    (t l v : String)
    (hmiss : DatabaseService.get_video db (normalize t) l v = none) :
    coordCheckPhase db table t l v
      = inflightCheck db table (videoIdOf (normalize t) l v) [.cacheLookup] := by
  unfold coordCheckPhase
  simp only [hmiss]

theorem inflightCheck_none (db : List Row) (table : StatusTable) (vid : String)
    (eff : List Effect) (h : table vid = none) :
    inflightCheck db table vid eff = .toFetch db vid eff := by
  unfold inflightCheck
  simp only [h]

theorem inflightCheck_generating (db : List Row) (table : StatusTable) (vid : String)
    (eff : List Effect) (e : StatusEntry)
    (h : table vid = some e) (hg : e.status = "generating") :
    inflightCheck db table vid eff
      = .respond ⟨.video vid (statusPath vid) "generating", db, table, eff, false⟩ := by
  unfold inflightCheck
  simp only [h]
  rw [if_pos hg]

theorem runCheckOut_inflight_db (db : List Row) (table : StatusTable) (vid : String)
    (eff : List Effect) (m : Option Meta) :
    (runCheckOut (inflightCheck db table vid eff) table m).db = db := by
  unfold inflightCheck runCheckOut coordSubmitPhase
  cases htv : table vid with
  | none => cases m <;> rfl
  | some e =>
    by_cases h1 : e.status = "generating"
    · simp [h1]
    · simp only [if_neg h1]
      by_cases h2 : e.status = "ready"
      · simp only [if_pos h2]
        cases e.storage_url with
        | none => cases m <;> rfl
        | some u => rfl
      · simp only [if_neg h2]
        cases m <;> rfl

/-! ## Claims -/

/-- C4: the title normalisation of `VideoRequest.title_slug`
(src/backend/main.py lines 32-35) is idempotent: normalising an
already-normalised slug yields the same slug. -/
theorem c4_normalize_idempotent (s : String) : normalize (normalize s) = normalize s :=
  congrArg String.mk (title_slug_idem s.data)

/-- C10 counterexample: for the valid video type `brute_force`, which itself
contains the underscore separator, parsing the constructed video id does not
recover the original (slug, language, kind) triple: the parser returns
(`two_sum_python`, `brute`, `force`) instead of
(`two_sum`, `python`, `brute_force`). -/
theorem c10_counterexample :
    parseVideoId (("two_sum" ++ "_" ++ "python" ++ "_" ++ "brute_force").data)
        ≠ some ("two_sum".data, "python".data, "brute_force".data)
    ∧ parseVideoId (("two_sum" ++ "_" ++ "python" ++ "_" ++ "brute_force").data)
        = some ("two_sum_python".data, "brute".data, "force".data) := by
  exact ⟨by decide, by decide⟩

/-- C10 (amended): splitting the video id on underscores and taking the last
part as the kind, the second-to-last as the language and the re-joined rest
as the slug recovers the original triple whenever the language and the kind
contain no underscore themselves (true of python, java, cpp and of
explanation and optimal; false for brute_force). The slug may contain
underscores freely. -/
theorem c10_parse_roundtrip (slug lang vt : List Char)
    (hl : '_' ∉ lang) (hv : '_' ∉ vt) :
    parseVideoId (slug ++ '_' :: lang ++ '_' :: vt) = some (slug, lang, vt) := by
  have h1 : splitOnChar '_' (slug ++ '_' :: lang ++ '_' :: vt)
      = (splitOnChar '_' slug ++ [lang]) ++ [vt] := by
    rw [splitOnChar_append, splitOnChar_append,
        splitOnChar_of_not_mem _ _ hl, splitOnChar_of_not_mem _ _ hv]
  obtain ⟨p, ps, hps⟩ := List.exists_cons_of_ne_nil (splitOnChar_ne_nil '_' slug)
  obtain ⟨q, qs, hqs⟩ :=
    List.exists_cons_of_ne_nil (l := (p :: ps).reverse) (by simp)
  have h2 : (((p :: ps) ++ [lang]) ++ [vt]).reverse = vt :: lang :: q :: qs := by
    rw [List.reverse_append, List.reverse_append, hqs]
    rfl
  unfold parseVideoId
  rw [h1, hps, h2]
  show some (joinWithChar '_' ((q :: qs).reverse), lang, vt) = some (slug, lang, vt)
  rw [← hqs, List.reverse_reverse, ← hps, joinWithChar_splitOnChar]

/-- Witness for C10 (amended) at a concrete input. -/
theorem c10_parse_roundtrip_witness :
    parseVideoId ("two_sum".data ++ '_' :: "python".data ++ '_' :: "optimal".data)
      = some ("two_sum".data, "python".data, "optimal".data) :=
  c10_parse_roundtrip "two_sum".data "python".data "optimal".data (by decide) (by decide)

/-- C2: when the Cache Store holds an entry with a non-empty storage URL for
the requested key, `generate_video` returns `ready` with that URL
immediately: the cache store is unchanged, the only recorded effect is the
cache lookup (in particular no metadata fetch and no job submission — code
generation, rendering and upload only ever run inside a submitted background
job, see `generate_video_background`). -/
theorem c2_cache_hit_short_circuit (db : List Row) (table : StatusTable)
    (t l v : String) (m : Option Meta) (row : Row)
    (hrow : DatabaseService.get_video db (normalize t) l v = some row)
    (hurl : row.storage_url ≠ "") :
    (generate_video db table t l v m).response
        = .video (videoIdOf (normalize t) l v) row.storage_url "ready"
    ∧ (generate_video db table t l v m).db = db
    ∧ (generate_video db table t l v m).effects = [Effect.cacheLookup]
    ∧ (generate_video db table t l v m).submitted = false := by
  unfold generate_video
  rw [coordCheckPhase_cache_hit db table t l v row hrow hurl]
  exact ⟨rfl, rfl, rfl, rfl⟩

/-- Witness for C2 at a concrete cached video. -/
theorem c2_cache_hit_witness :
    (generate_video [⟨"two_sum", "python", "explanation", "https://cdn/a.mp4"⟩]
        (fun _ => none) "Two Sum" "python" "explanation" none).response
      = Response.video "two_sum_python_explanation" "https://cdn/a.mp4" "ready" := by
  have h := c2_cache_hit_short_circuit
      [⟨"two_sum", "python", "explanation", "https://cdn/a.mp4"⟩] (fun _ => none)
      "Two Sum" "python" "explanation" none
      ⟨"two_sum", "python", "explanation", "https://cdn/a.mp4"⟩ (by decide) (by decide)
  rw [h.1]
  decide

/-- C7: when the Cache Store holds an entry with an empty storage URL for the
requested key, `generate_video` deletes it (the resulting cache store is the
one with the key's rows removed) and proceeds exactly as a cache miss over
the cleaned store: response, final store and submission decision coincide
with those of the same request run against the cleaned store. When the key
is additionally not in flight and metadata is found, a new background job is
submitted. -/
theorem c7_self_healing (db : List Row) (table : StatusTable)
    (t l v : String) (m : Option Meta) (row : Row)
    (hrow : DatabaseService.get_video db (normalize t) l v = some row)
    (hurl : row.storage_url = "") :
    (generate_video db table t l v m).db
        = DatabaseService.delete_video db (normalize t) l v
    ∧ (generate_video db table t l v m).response
        = (generate_video (DatabaseService.delete_video db (normalize t) l v)
            table t l v m).response
    ∧ (generate_video db table t l v m).submitted
        = (generate_video (DatabaseService.delete_video db (normalize t) l v)
            table t l v m).submitted
    ∧ (table (videoIdOf (normalize t) l v) = none → ∀ mm, m = some mm →
        (generate_video db table t l v m).submitted = true) := by
  have hstale := coordCheckPhase_cache_stale db table t l v row hrow hurl
  have hclean := coordCheckPhase_cache_miss
      (DatabaseService.delete_video db (normalize t) l v) table t l v
      (get_video_after_delete db t l v)
  unfold generate_video
  rw [hstale, hclean]
  refine ⟨?_, ?_, ?_, ?_⟩
  · exact runCheckOut_inflight_db _ table _ _ m
  · exact (runCheckOut_inflight_eff _ table _ _ _ m).1
  · exact (runCheckOut_inflight_eff _ table _ _ _ m).2.2
  · intro hflight mm hm
    rw [inflightCheck_none _ _ _ _ hflight, hm]
    rfl

/-- Witness for C7: a cached row with an empty URL is deleted and a fresh job
is submitted. -/
theorem c7_self_healing_witness :
    (generate_video [⟨"two_sum", "python", "explanation", ""⟩] (fun _ => none)
        "Two Sum" "python" "explanation" (some ⟨"Two Sum", "Easy", "array"⟩)).submitted
      = true :=
  (c7_self_healing [⟨"two_sum", "python", "explanation", ""⟩] (fun _ => none)
      "Two Sum" "python" "explanation" (some ⟨"Two Sum", "Easy", "array"⟩)
      ⟨"two_sum", "python", "explanation", ""⟩ (by decide) rfl).2.2.2 rfl _ rfl

/-- C8: on a cache miss with no in-flight entry, when the metadata
collaborator reports nothing (`fetch_problem_details` returns `None`, i.e.
no cached problem and a NotFound answer from the remote API), the request
fails with 404, the status table is untouched (the coordinator never writes
an entry) and no background job is submitted. -/
theorem c8_metadata_not_found (db : List Row) (table : StatusTable)
    (t l v : String)
    (hmiss : DatabaseService.get_video db (normalize t) l v = none)
    (hnoflight : table (videoIdOf (normalize t) l v) = none) :
    (generate_video db table t l v none).response
        = Response.httpError 404 "Problem not found"
    ∧ (generate_video db table t l v none).submitted = false
    ∧ (generate_video db table t l v none).statusTable = table
    ∧ Effect.jobSubmit ∉ (generate_video db table t l v none).effects := by
  unfold generate_video
  rw [coordCheckPhase_cache_miss db table t l v hmiss,
      inflightCheck_none _ _ _ _ hnoflight]
  refine ⟨rfl, rfl, rfl, ?_⟩
  show Effect.jobSubmit ∉ [Effect.cacheLookup, Effect.metadataFetch]
  decide

/-- Witness for C8 at a concrete unknown problem. -/
theorem c8_metadata_not_found_witness :
    (generate_video [] (fun _ => none) "unknown problem" "python" "explanation"
        none).response = Response.httpError 404 "Problem not found"
    ∧ (generate_video [] (fun _ => none) "unknown problem" "python" "explanation"
        none).submitted = false :=
  ⟨(c8_metadata_not_found [] (fun _ => none) "unknown problem" "python" "explanation"
      rfl rfl).1,
   (c8_metadata_not_found [] (fun _ => none) "unknown problem" "python" "explanation"
      rfl rfl).2.1⟩

/-- C1 counterexample: two identical requests for an uncached key, interleaved
at the `await fetch_problem_details` suspension point of the handler, both
pass the in-flight check (the coordinator records no status entry before
submitting, and the submitted job has not started), so two background jobs
are submitted for one key — not exactly one as claimed. -/
theorem c1_counterexample :
    concurrentDuplicateSubmissions [] (fun _ => none) "two sum" "python" "explanation"
        (some ⟨"Two Sum", "Easy", "array"⟩) = 2
    ∧ (2 : Nat) ≠ 1 :=
  ⟨rfl, by decide⟩

/-- C1 (amended): the deduplication is best-effort: a duplicate request whose
check phase observes the `generating` status entry already written by the
first job (and no cache entry) returns status `generating` and submits no
job; duplicates that all pass the check phase before any status entry is
written can each submit a job, because the check and the submission are
separated by the `await fetch_problem_details` suspension point and the
coordinator records no status entry of its own (see the counterexample). -/
theorem c1_single_flight_when_observed (db : List Row) (table : StatusTable)
    (t l v : String) (m : Option Meta) (e : StatusEntry)
    (hmiss : DatabaseService.get_video db (normalize t) l v = none)
    (hin : table (videoIdOf (normalize t) l v) = some e)
    (hgen : e.status = "generating") :
    (generate_video db table t l v m).submitted = false
    ∧ (generate_video db table t l v m).response
        = Response.video (videoIdOf (normalize t) l v)
            (statusPath (videoIdOf (normalize t) l v)) "generating"
    ∧ Effect.jobSubmit ∉ (generate_video db table t l v m).effects := by
  unfold generate_video
  rw [coordCheckPhase_cache_miss db table t l v hmiss,
      inflightCheck_generating _ _ _ _ _ hin hgen]
  refine ⟨rfl, rfl, ?_⟩
  show Effect.jobSubmit ∉ [Effect.cacheLookup]
  decide

/-- Status-write trace of a job failing at the code-generation stage. -/
def tSolutionFail : List StatusEntry :=
  [eGen 0 "Starting video generation...",
   eGen 20 "Generating solution code...",
   eErr "We could not generate a solution for this problem. Please check the problem title and try again."]

/-- Status-write trace of a job failing at the render stage. -/
def tRenderFail : List StatusEntry :=
  [eGen 0 "Starting video generation...",
   eGen 20 "Generating solution code...",
   eGen 50 "Creating video animation...",
   eErr "Sorry, we could not create the video animation. Please try again later."]

/-- Status-write trace of a job whose rendered file is missing. -/
def tFileFail : List StatusEntry :=
  [eGen 0 "Starting video generation...",
   eGen 20 "Generating solution code...",
   eGen 50 "Creating video animation...",
   eErr "Video generation completed but file not found. Please try again."]

/-- Status-write trace of a job failing at the upload stage. -/
def tUploadFail : List StatusEntry :=
  [eGen 0 "Starting video generation...",
   eGen 20 "Generating solution code...",
   eGen 50 "Creating video animation...",
   eGen 70 "Uploading video to storage...",
   eErr "Video was created but could not be saved to storage. Please try again."]

/-- Status-write trace of a job that reaches the final ready state (whether
or not the database persist step succeeded). -/
def tSuccess (url : String) : List StatusEntry :=
  [eGen 0 "Starting video generation...",
   eGen 20 "Generating solution code...",
   eGen 50 "Creating video animation...",
   eGen 70 "Uploading video to storage...",
   eGen 90 "Saving video record to database...",
   eGen 95 "Cleaning up temporary files...",
   ⟨"ready", 100, "Your video is ready!", some url⟩]

/-- Exhaustive classification of the observable behaviour of one background
job by the first failing stage. -/
theorem generate_video_background_shape (o : Outcomes) :
    (o.solutionOk = false ∧ generate_video_background o = (tSolutionFail, false))
    ∨ (o.solutionOk = true ∧ o.renderOk = false
        ∧ generate_video_background o = (tRenderFail, false))
    ∨ (o.solutionOk = true ∧ o.renderOk = true ∧ o.fileExists = false
        ∧ generate_video_background o = (tFileFail, false))
    ∨ (o.solutionOk = true ∧ o.renderOk = true ∧ o.fileExists = true
        ∧ uploadOkUrl o = none ∧ generate_video_background o = (tUploadFail, false))
    ∨ (∃ url, o.solutionOk = true ∧ o.renderOk = true ∧ o.fileExists = true
        ∧ uploadOkUrl o = some url
        ∧ generate_video_background o = (tSuccess url, o.dbSaveOk)) := by
  obtain ⟨s, r, f, u, d⟩ := o
  cases s with
  | false => exact Or.inl ⟨rfl, rfl⟩
  | true =>
    cases r with
    | false => exact Or.inr (Or.inl ⟨rfl, rfl, rfl⟩)
    | true =>
      cases f with
      | false => exact Or.inr (Or.inr (Or.inl ⟨rfl, rfl, rfl, rfl⟩))
      | true =>
        cases hu : uploadOkUrl ⟨true, true, true, u, d⟩ with
        | none =>
          refine Or.inr (Or.inr (Or.inr (Or.inl ⟨rfl, rfl, rfl, rfl, ?_⟩)))
          unfold generate_video_background
          rw [hu]
          rfl
        | some url =>
          refine Or.inr (Or.inr (Or.inr (Or.inr ⟨url, rfl, rfl, rfl, rfl, ?_⟩)))
          unfold generate_video_background
          rw [hu]
          rfl

/-- C3 counterexample: when every stage succeeds except the database persist
step (the row insert raises or returns nothing), no Cache Entry is created,
yet the status entry ends `ready` — not the terminal failed/error state the
claim requires for a failure of the persist stage. -/
theorem c3_counterexample :
    (generate_video_background ⟨true, true, true, some "https://cdn/a.mp4", false⟩).2 = false
    ∧ ((generate_video_background
          ⟨true, true, true, some "https://cdn/a.mp4", false⟩).1.getLast?).map
        StatusEntry.status = some "ready"
    ∧ ("ready" : String) ≠ "error" :=
  ⟨rfl, rfl, by decide⟩

/-- C3 (amended): a failure of the code-generation, render (including a
missing output file) or upload stage halts the pipeline with no Cache Entry
written and a terminal `error` status entry carrying a non-empty
user-presentable message; a failure of the persist stage alone also writes
no Cache Entry, but the status entry still ends `ready` (the video remains
reachable through its storage URL). The metadata stage runs in the request
coordinator before the job is submitted, so no job exists when it fails (see
the C8 theorem). -/
theorem c3_failure_halts (o : Outcomes) :
    ((o.solutionOk = false ∨ o.renderOk = false ∨ o.fileExists = false
        ∨ uploadOkUrl o = none) →
      (generate_video_background o).2 = false
      ∧ ∃ e, (generate_video_background o).1.getLast? = some e
          ∧ e.status = "error" ∧ e.message ≠ "")
    ∧ (o.dbSaveOk = false → (generate_video_background o).2 = false) := by
  rcases generate_video_background_shape o with
    ⟨hs, hg⟩ | ⟨hs, hr, hg⟩ | ⟨hs, hr, hf, hg⟩ | ⟨hs, hr, hf, hu, hg⟩
      | ⟨url, hs, hr, hf, hu, hg⟩
  · exact ⟨fun _ => by rw [hg]; exact ⟨rfl, _, rfl, rfl, by decide⟩,
      fun _ => by rw [hg]⟩
  · exact ⟨fun _ => by rw [hg]; exact ⟨rfl, _, rfl, rfl, by decide⟩,
      fun _ => by rw [hg]⟩
  · exact ⟨fun _ => by rw [hg]; exact ⟨rfl, _, rfl, rfl, by decide⟩,
      fun _ => by rw [hg]⟩
  · exact ⟨fun _ => by rw [hg]; exact ⟨rfl, _, rfl, rfl, by decide⟩,
      fun _ => by rw [hg]⟩
  · refine ⟨fun h => ?_, fun hd => by rw [hg]; exact hd⟩
    rcases h with h | h | h | h
    · rw [hs] at h; exact Bool.noConfusion h
    · rw [hr] at h; exact Bool.noConfusion h
    · rw [hf] at h; exact Bool.noConfusion h
    · rw [hu] at h; exact Option.noConfusion h

/-- Witness for C3 (amended) at a concrete render failure. -/
theorem c3_failure_halts_witness :
    (generate_video_background ⟨true, false, true, some "https://cdn/a.mp4", true⟩).2 = false
    ∧ ∃ e, (generate_video_background
          ⟨true, false, true, some "https://cdn/a.mp4", true⟩).1.getLast? = some e
        ∧ e.status = "error" ∧ e.message ≠ "" :=
  (c3_failure_halts ⟨true, false, true, some "https://cdn/a.mp4", true⟩).1
    (Or.inr (Or.inl rfl))

/-- Complementary fact about the terminal transition: a job that fails at the
render stage makes the video-status endpoint report the progress sequence
0, 20, 50, 0 — the terminal error entry resets progress to 0, so the
sequence extended WITH the terminal observation is not non-decreasing. The
monotonicity guarantee therefore holds up to, and not including, the
terminal state. -/
theorem progress_reset_on_failure :
    nonDecreasing (((generate_video_background ⟨true, false, true, none, true⟩).1).map
        (fun e => (get_video_status (fun _ => some e) []
            "two_sum_python_explanation").progress)) = false := rfl

/-- C6: over the lifetime of one job, the progress values observable via the
video-status endpoint are monotonically non-decreasing until a terminal
state is reached: all observations strictly before the terminal one have
non-decreasing progress, and every such observation reports status
`generating`. In addition, the terminal observation has progress 100 when
the job ends `ready` and progress 0 when it ends `error` (a failure resets
the reported progress at the terminal transition; see
`progress_reset_on_failure`). -/
theorem c6_progress_monotone (o : Outcomes) :
    nonDecreasing (((generate_video_background o).1.dropLast).map
        (fun e => (get_video_status (fun _ => some e) []
            "two_sum_python_explanation").progress)) = true
    ∧ ((generate_video_background o).1.dropLast).all
        (fun e => e.status == "generating") = true
    ∧ ∃ e, (generate_video_background o).1.getLast? = some e
        ∧ ((e.status = "ready" ∧ e.progress = 100)
            ∨ (e.status = "error" ∧ e.progress = 0)) := by
  rcases generate_video_background_shape o with
    ⟨hs, hg⟩ | ⟨hs, hr, hg⟩ | ⟨hs, hr, hf, hg⟩ | ⟨hs, hr, hf, hu, hg⟩
      | ⟨url, hs, hr, hf, hu, hg⟩
  · rw [hg]; exact ⟨rfl, rfl, _, rfl, Or.inr ⟨rfl, rfl⟩⟩
  · rw [hg]; exact ⟨rfl, rfl, _, rfl, Or.inr ⟨rfl, rfl⟩⟩
  · rw [hg]; exact ⟨rfl, rfl, _, rfl, Or.inr ⟨rfl, rfl⟩⟩
  · rw [hg]; exact ⟨rfl, rfl, _, rfl, Or.inr ⟨rfl, rfl⟩⟩
  · rw [hg]
    exact ⟨rfl, rfl, ⟨"ready", 100, "Your video is ready!", some url⟩, rfl,
      Or.inl ⟨rfl, rfl⟩⟩

/-- Witness for C1 (amended): a duplicate that observes the first job's
status entry does not submit. -/
theorem c1_single_flight_witness :
    (generate_video []
        (fun vid => if vid = "two_sum_python_explanation"
          then some (eGen 0 "Starting video generation...") else none)
        "two sum" "python" "explanation" none).submitted = false :=
  (c1_single_flight_when_observed []
      (fun vid => if vid = "two_sum_python_explanation"
        then some (eGen 0 "Starting video generation...") else none)
      "two sum" "python" "explanation" none
      (eGen 0 "Starting video generation...") rfl (by decide) rfl).1

/-- C5 counterexample: a title that is empty after trimming is not rejected:
pydantic validation accepts it (there is no title constraint) and the
coordinator proceeds to process the request with the empty slug and submits
a background job, instead of failing with a ValidationError. -/
theorem c5_counterexample :
    requestValid "   " "python" "explanation" = true
    ∧ (generate_video [] (fun _ => none) "   " "python" "explanation"
        (some ⟨"Two Sum", "Easy", "array"⟩)).submitted = true
    ∧ (generate_video [] (fun _ => none) "   " "python" "explanation"
        (some ⟨"Two Sum", "Easy", "array"⟩)).response
      = Response.video "_python_explanation" (statusPath "_python_explanation")
          "generating" :=
  ⟨by decide, rfl, by decide⟩

/-- C5 (amended): normalisation is pure, deterministic (it is a function of
the title alone) and total over all strings, the empty-after-trim ones
included; such titles are NOT rejected: request validation accepts them
whenever language and video type are valid, they normalise to the empty
slug, and the coordinator proceeds (on an empty cache and status table with
metadata found it submits a background job). -/
theorem c5_empty_title_not_rejected (t l v : String)
    (hempty : pyStrip t.data = [])
    (hl : validLanguages.contains l = true)
    (hv : validVideoTypes.contains v = true) :
    requestValid t l v = true
    ∧ normalize t = ""
    ∧ ∀ m : Meta, (generate_video [] (fun _ => none) t l v (some m)).submitted = true := by
  refine ⟨?_, ?_, ?_⟩
  · unfold requestValid
    rw [hl, hv]
    rfl
  · show String.mk (title_slug t.data) = ""
    rw [title_slug_eq_map, hempty]
    decide
  · intro m
    rfl

/-- Witness for C5 (amended) at a concrete whitespace-only title. -/
theorem c5_empty_title_witness :
    requestValid "   " "java" "optimal" = true
    ∧ normalize "   " = ""
    ∧ ∀ m : Meta,
        (generate_video [] (fun _ => none) "   " "java" "optimal" (some m)).submitted
          = true :=
  c5_empty_title_not_rejected "   " "java" "optimal" (by decide) (by decide) (by decide)

/-- C9 (code bug): deleting video id `two_sum_python_explanation` while the
cache holds the row (two_sum, python, explanation): the endpoint reports
success and passes the storage URL to the storage delete, but the Cache
Entry row survives, because the endpoint hands the title-cased, space-joined
name `Two Sum` to `DatabaseService.delete_video`, which compares the stored
column verbatim, while rows store the normalised slug `two_sum`. This
contradicts the endpoint contract of deleting both the storage object and
the Cache Entry. -/
theorem c9_delete_leaves_cache_entry :
    (delete_video_endpoint [⟨"two_sum", "python", "explanation", "https://cdn/a.mp4"⟩]
        "two_sum_python_explanation").response
      = Response.message "Video deleted successfully"
    ∧ (delete_video_endpoint [⟨"two_sum", "python", "explanation", "https://cdn/a.mp4"⟩]
        "two_sum_python_explanation").storageDeleted = ["https://cdn/a.mp4"]
    ∧ (delete_video_endpoint [⟨"two_sum", "python", "explanation", "https://cdn/a.mp4"⟩]
        "two_sum_python_explanation").db
      = [⟨"two_sum", "python", "explanation", "https://cdn/a.mp4"⟩] :=
  ⟨by decide, by decide, by decide⟩

end LeetVis
